import Mathlib

/-!
Verification development for the `guess` protocol-detection library.

The Rust sources are shallowly embedded here:
* bytes are `Nat` values (0..255) and byte slices are `List Nat`;
* each per-protocol recognizer in `src/protocols/*.rs` becomes a Lean
  function of the same name pattern (`dns_detect`, `stun_detect`, ...);
* the registry and engine from `src/lib.rs` and `src/detector.rs`
  (`Protocol`, `min_bytes`, `probe_info`, `check_protocol`,
  `detect_info`, `detect`) become the corresponding Lean definitions.

Four functions referenced by `Protocol::probe_info` — `http::probe`,
`tls::probe`, `ssh::probe` and `redis::probe` — are not present in the
sources (only bool-valued `detect` helpers and the callers are), so they
are modelled from the specification; each such definition carries a doc
comment beginning `Modelled from the spec:`.
-/

namespace Guess

/-- Byte values of an ASCII string, used for byte-literal constants. -/
def bytes (s : String) : List Nat := s.toList.map Char.toNat

/-- Big-endian `u16::from_be_bytes [a, b]`. -/
def u16be (a b : Nat) : Nat := a * 256 + b

/-- Big-endian `u32::from_be_bytes [a, b, c, d]`. -/
def u32be (a b c d : Nat) : Nat := ((a * 256 + b) * 256 + c) * 256 + d

/-- `data.starts_with pre` on byte slices. -/
def startsWith : List Nat → List Nat → Bool
  | _, [] => true
  | [], _ :: _ => false
  | d :: ds, p :: ps => d = p && startsWith ds ps

/-- `DetectionStatus` from `src/lib.rs`. -/
inductive DetectionStatus
  | Match
  | NoMatch
  | Incomplete
  deriving DecidableEq, Repr

/-- `ProtocolVersion` from `src/lib.rs` (borrowed `&str` payloads become `String`). -/
inductive ProtocolVersion
  | Http (v : String)
  | Tls (v : String)
  | Ssh (v : String)
  | Redis (v : Nat)
  | Unknown
  deriving DecidableEq, Repr

/-- `Protocol` from `src/lib.rs` (all features compiled in). -/
inductive Protocol
  | Http | Tls | Ssh | Dns | Quic | Mysql | Postgres | Redis | Mqtt | Smtp
  | Pop3 | Imap | Ftp | Smb | Stun | Sip | Rtsp | Dhcp | Ntp
  deriving DecidableEq, Repr

/-- `ProtocolInfo` from `src/lib.rs`. -/
structure ProtocolInfo where
  protocol : Protocol
  version : ProtocolVersion
  deriving DecidableEq, Repr

/-- `DetectionError` from `src/lib.rs`: note that `InsufficientData` carries no payload. -/
inductive DetectionError
  | InsufficientData
  | ProtocolNotEnabled (p : Protocol)
  deriving DecidableEq, Repr

/-- `DetectionResult<T>` from `src/lib.rs`. -/
abbrev DetectionResult (α : Type) := Except DetectionError α

instance {α : Type} [DecidableEq α] : DecidableEq (DetectionResult α) := fun a b =>
  match a, b with
  | .ok x, .ok y =>
      if h : x = y then isTrue (by rw [h]) else isFalse (by intro hh; cases hh; exact h rfl)
  | .error x, .error y =>
      if h : x = y then isTrue (by rw [h]) else isFalse (by intro hh; cases hh; exact h rfl)
  | .ok _, .error _ => isFalse (by intro hh; cases hh)
  | .error _, .ok _ => isFalse (by intro hh; cases hh)

/-- `validate_dns_header` from `src/protocols/dns.rs` (header is the 12-byte slice). -/
def validate_dns_header (header : List Nat) : Bool :=
  let qr_opcode_etc := header.getD 2 0
  let opcode := (qr_opcode_etc >>> 3) &&& 0x0F
  if !(opcode = 0 || opcode = 1 || opcode = 2 || opcode = 4 || opcode = 5) then false
  else
    let ra_z_rcode := header.getD 3 0
    let z := (ra_z_rcode >>> 4) &&& 0x07
    if z ≠ 0 then false
    else
      let qdcount := u16be (header.getD 4 0) (header.getD 5 0)
      let ancount := u16be (header.getD 6 0) (header.getD 7 0)
      let nscount := u16be (header.getD 8 0) (header.getD 9 0)
      let arcount := u16be (header.getD 10 0) (header.getD 11 0)
      let qr := (qr_opcode_etc >>> 7) &&& 0x01
      if qr = 0 then
        if qdcount = 0 || qdcount > 10 then false
        else if ancount > 0 || nscount > 0 then false
        else if arcount > 5 then false
        else if qdcount + ancount + nscount + arcount = 0 then false
        else true
      else
        if qdcount > 10 || ancount > 200 || nscount > 100 || arcount > 100 then false
        else if qdcount + ancount + nscount + arcount = 0 then false
        else true

/-- `dns::detect` from `src/protocols/dns.rs`. -/
def dns_detect (data : List Nat) : Bool :=
  if data.length < 12 then false
  else if validate_dns_header (data.take 12) then
    if data.length ≥ 13 then
      let qdcount := u16be (data.getD 4 0) (data.getD 5 0)
      if qdcount > 0 && data.getD 12 0 > 63 then false else true
    else true
  else if data.length ≥ 14 then
    let tcp_len := u16be (data.getD 0 0) (data.getD 1 0)
    if tcp_len ≥ 12 && validate_dns_header ((data.drop 2).take 12) then
      if data.length ≥ 15 then
        let qdcount := u16be (data.getD 6 0) (data.getD 7 0)
        if qdcount > 0 && data.getD 14 0 > 63 then false else true
      else true
    else false
  else false

/-- `stun::detect` from `src/protocols/stun.rs`. -/
def stun_detect (data : List Nat) : Bool :=
  if data.length < 20 then false
  else if !((data.drop 4).take 4 = [0x21, 0x12, 0xA4, 0x42]) then false
  else if data.getD 0 0 &&& 0xC0 ≠ 0 then false
  else
    let msg_len := u16be (data.getD 2 0) (data.getD 3 0)
    if msg_len % 4 ≠ 0 then false else true

/-- `data[i] as i8` — reinterpret a byte as a signed 8-bit integer. -/
def asI8 (b : Nat) : Int :=
  if b % 256 < 128 then ((b % 256 : Nat) : Int) else ((b % 256 : Nat) : Int) - 256

/-- `ntp::detect` from `src/protocols/ntp.rs`. -/
def ntp_detect (data : List Nat) : Bool :=
  if data.length < 48 then false
  else
    let first_byte := data.getD 0 0
    let vn := (first_byte >>> 3) &&& 0x07
    let mode := first_byte &&& 0x07
    if !(1 ≤ vn && vn ≤ 4) then false
    else if !(1 ≤ mode && mode ≤ 7) then false
    else if data.getD 1 0 > 16 then false
    else if data.getD 2 0 > 20 then false
    else if !(-32 ≤ asI8 (data.getD 3 0) && asI8 (data.getD 3 0) ≤ 16) then false
    else if ((data.drop 40).take 8).all (fun b => b = 0) then false
    else true

/-- `quic::detect` from `src/protocols/quic.rs`. -/
def quic_detect (data : List Nat) : Bool :=
  if data.length < 7 then false
  else
    let first_byte := data.getD 0 0
    if first_byte &&& 0xC0 ≠ 0xC0 then false
    else
      let version := u32be (data.getD 1 0) (data.getD 2 0) (data.getD 3 0) (data.getD 4 0)
      let is_valid_version := version = 1 || version = 0 || version = 0x6b3343cf
        || (version ≥ 0xff000000 && version ≤ 0xff0000ff)
      if !is_valid_version then false
      else if version ≠ 0 && first_byte &&& 0x0C ≠ 0 then false
      else
        let dcid_len := data.getD 5 0
        if dcid_len > 20 then false
        else if data.length ≤ 6 + dcid_len then true
        else
          let scid_len := data.getD (6 + dcid_len) 0
          if scid_len > 20 then false else true

/-- `dhcp::detect` from `src/protocols/dhcp.rs`. -/
def dhcp_detect (data : List Nat) : Bool :=
  if data.length < 44 then false
  else
    let op := data.getD 0 0
    if op ≠ 1 && op ≠ 2 then false
    else
      let htype := data.getD 1 0
      let hlen := data.getD 2 0
      let hw_ok :=
        if htype = 1 || htype = 6 then
          hlen = 6 && ((data.drop 34).take 10).all (fun b => b = 0)
        else
          !(hlen = 0 || hlen > 16)
      if !hw_ok then false
      else if data.getD 3 0 > 16 then false
      else if data.getD 10 0 &&& 0x7F ≠ 0 || data.getD 11 0 ≠ 0 then false
      else if data.length ≥ 240 then
        (data.drop 236).take 4 = [0x63, 0x82, 0x53, 0x63]
      else true

/-- `smb::detect` from `src/protocols/smb.rs`. -/
def smb_detect (data : List Nat) : Bool :=
  if data.length < 4 then false
  else
    let magic := data.take 4
    if magic = 0xff :: bytes "SMB" || magic = 0xfe :: bytes "SMB" then true
    else if data.length ≥ 8 && data.getD 0 0 = 0 then
      let len := u32be 0 (data.getD 1 0) (data.getD 2 0) (data.getD 3 0)
      let inner_magic := (data.drop 4).take 4
      if inner_magic = 0xff :: bytes "SMB" then len ≥ 32
      else if inner_magic = 0xfe :: bytes "SMB" then len ≥ 64
      else false
    else false

/-- Scan loop of `mysql::detect`: walk bytes at increasing index looking for a NUL.
`none` encodes the early `return false` on a non-printable byte; `some none` means
no NUL in the window; `some (some i)` is the NUL's index. -/
def mysqlScan : List Nat → Nat → Option (Option Nat)
  | [], _ => some none
  | b :: rest, i =>
    if b = 0 then some (some i)
    else if b < 32 || b > 126 then none
    else mysqlScan rest (i + 1)

/-- `mysql::detect` from `src/protocols/mysql.rs`. -/
def mysql_detect (data : List Nat) : Bool :=
  if data.length < 10 then false
  else
    let payload_len := data.getD 0 0 + data.getD 1 0 * 256 + data.getD 2 0 * 65536
    if payload_len < 30 || payload_len > 1024 then false
    else if data.getD 3 0 ≠ 0 then false
    else if data.getD 4 0 ≠ 0x0A then false
    else
      let search_limit := data.length.min 48
      match mysqlScan ((data.drop 5).take (search_limit - 5)) 5 with
      | none => false
      | some none => data.length < 20
      | some (some idx) =>
        if data.length > idx + 13 then
          if data.getD (idx + 13) 0 ≠ 0 then false else true
        else true

/-- Payload scan of `postgres::detect`: `none` encodes the early `return false`
on a non-printable byte; `some found_nul` otherwise. -/
def pgScan : List Nat → Option Bool
  | [] => some false
  | b :: rest =>
    if b = 0 then some true
    else if b < 32 || b > 126 then none
    else pgScan rest

/-- `postgres::detect` from `src/protocols/postgres.rs`. -/
def postgres_detect (data : List Nat) : Bool :=
  if data.length < 8 then false
  else
    let length := u32be (data.getD 0 0) (data.getD 1 0) (data.getD 2 0) (data.getD 3 0)
    let code := u32be (data.getD 4 0) (data.getD 5 0) (data.getD 6 0) (data.getD 7 0)
    if length = 8 && code = 0x04D2162F then true
    else if length ≥ 8 && length ≤ 4096 && code = 0x00030000 then
      if data.length ≥ 12 then
        match pgScan ((data.drop 8).take (data.length.min 64 - 8)) with
        | none => false
        | some found_nul => found_nul
      else true
    else false

/-- Remaining-Length loop of `mqtt::detect` (variable byte integer, offsets 1..4):
returns `some (remaining_length, offset past the length)` when the loop breaks with
a terminating byte, `none` when it exits without one. The extra fuel argument bounds
the iteration exactly as `offset < 5` does. -/
def mqttLen (data : List Nat) : Nat → Nat → Nat → Nat → Option (Nat × Nat)
  | _, _, _, 0 => none
  | offset, mult, acc, fuel + 1 =>
    if offset < 5 && offset < data.length then
      let b := data.getD offset 0
      let acc := acc + (b &&& 0x7F) * mult
      if b &&& 0x80 = 0 then some (acc, offset + 1)
      else mqttLen data (offset + 1) (mult * 128) acc fuel
    else none

/-- `mqtt::detect` from `src/protocols/mqtt.rs`. -/
def mqtt_detect (data : List Nat) : Bool :=
  if data.length < 12 then false
  else if data.getD 0 0 ≠ 0x10 then false
  else
    match mqttLen data 1 1 0 5 with
    | none => false
    | some (remaining_length, offset) =>
      if data.length < offset + 2 then false
      else
        let name_len := u16be (data.getD offset 0) (data.getD (offset + 1) 0)
        if remaining_length < name_len + 6 then false
        else
          let offset := offset + 2
          if name_len ≠ 4 && name_len ≠ 6 then false
          else if data.length < offset + name_len + 1 then false
          else
            let name := (data.drop offset).take name_len
            let level := data.getD (offset + name_len) 0
            if name = bytes "MQTT" then level = 4 || level = 5
            else if name = bytes "MQIsdp" then level = 3
            else false

/-- Line scan shared by `validate_line` in smtp.rs, pop3.rs, ftp.rs and imap.rs:
`none` encodes the early `return false` on an invalid byte, `some found_newline`
otherwise. -/
def lineScan : List Nat → Option Bool
  | [] => some false
  | b :: rest =>
    if b = 10 then some true
    else if b ≠ 13 && b ≠ 9 && (b < 32 || b > 126) then none
    else lineScan rest

/-- `validate_line` from smtp.rs / pop3.rs / ftp.rs / imap.rs (identical in all four). -/
def validate_line (data : List Nat) : Bool :=
  match lineScan (data.take (data.length.min 64)) with
  | none => false
  | some found_newline => found_newline || data.length ≥ 16

/-- `is_command` from smtp.rs / pop3.rs / ftp.rs (identical in all three). -/
def is_command (data cmd : List Nat) : Bool :=
  if !startsWith data cmd then false
  else if data.length = cmd.length then true
  else
    let next := data.getD cmd.length 0
    next = 32 || next = 13 || next = 10

/-- `smtp::detect` from `src/protocols/smtp.rs`. -/
def smtp_detect (data : List Nat) : Bool :=
  if data.length < 5 then false
  else if startsWith data (bytes "220 ") || startsWith data (bytes "220-") then
    validate_line data
  else if is_command data (bytes "EHLO")
      || is_command data (bytes "HELO")
      || startsWith data (bytes "MAIL FROM:")
      || startsWith data (bytes "RCPT TO:")
      || is_command data (bytes "DATA")
      || is_command data (bytes "QUIT")
      || is_command data (bytes "STARTTLS")
      || is_command data (bytes "VRFY")
      || is_command data (bytes "EXPN") then
    validate_line data
  else false

/-- `pop3::detect` from `src/protocols/pop3.rs`. -/
def pop3_detect (data : List Nat) : Bool :=
  if data.length < 5 then false
  else if startsWith data (bytes "+OK ") || startsWith data (bytes "-ERR ") then
    validate_line data
  else if is_command data (bytes "USER")
      || is_command data (bytes "PASS")
      || is_command data (bytes "STAT")
      || is_command data (bytes "LIST")
      || is_command data (bytes "RETR")
      || is_command data (bytes "QUIT")
      || is_command data (bytes "CAPA") then
    validate_line data
  else false

/-- `ftp::detect` from `src/protocols/ftp.rs`. -/
def ftp_detect (data : List Nat) : Bool :=
  if data.length < 5 then false
  else if startsWith data (bytes "220 ") || startsWith data (bytes "220-") then
    validate_line data
  else if is_command data (bytes "USER")
      || is_command data (bytes "PASS")
      || is_command data (bytes "AUTH")
      || is_command data (bytes "SYST")
      || is_command data (bytes "FEAT")
      || is_command data (bytes "QUIT")
      || is_command data (bytes "PASV")
      || is_command data (bytes "EPSV")
      || is_command data (bytes "TYPE")
      || is_command data (bytes "PWD") then
    validate_line data
  else false

/-- Count of leading bytes satisfying `p`, capped at `cap` — the shape of the
index-bumping `while` loops in `imap::detect`. -/
def takeCount : List Nat → Nat → (Nat → Bool) → Nat
  | _, 0, _ => 0
  | [], _ + 1, _ => 0
  | b :: rest, cap + 1, p => if p b then takeCount rest cap p + 1 else 0

/-- `is_tag_char` from `src/protocols/imap.rs`. -/
def is_tag_char (b : Nat) : Bool :=
  (48 ≤ b && b ≤ 57) || (65 ≤ b && b ≤ 90) || (97 ≤ b && b ≤ 122)
    || b = 46 || b = 95 || b = 45

/-- `is_imap_command` from `src/protocols/imap.rs`. -/
def is_imap_command (cmd : List Nat) : Bool :=
  [bytes "LOGIN", bytes "LOGOUT", bytes "CAPABILITY", bytes "NOOP", bytes "STARTTLS",
   bytes "AUTHENTICATE", bytes "SELECT", bytes "EXAMINE", bytes "CREATE", bytes "DELETE",
   bytes "RENAME", bytes "SUBSCRIBE", bytes "UNSUBSCRIBE", bytes "LIST", bytes "LSUB",
   bytes "STATUS", bytes "APPEND", bytes "CHECK", bytes "CLOSE", bytes "EXPUNGE",
   bytes "SEARCH", bytes "FETCH", bytes "STORE", bytes "COPY", bytes "UID", bytes "ID",
   bytes "ENABLE", bytes "IDLE", bytes "NAMESPACE"].any (fun c => cmd = c)

/-- `imap::detect` from `src/protocols/imap.rs`. -/
def imap_detect (data : List Nat) : Bool :=
  if data.length < 5 then false
  else if startsWith data (bytes "* ") &&
      (startsWith (data.drop 2) (bytes "OK ")
        || startsWith (data.drop 2) (bytes "PREAUTH ")
        || startsWith (data.drop 2) (bytes "BYE ")
        || startsWith (data.drop 2) (bytes "NO ")
        || startsWith (data.drop 2) (bytes "BAD ")) then
    validate_line data
  else
    let i := takeCount data 20 is_tag_char
    if i > 0 && i + 1 < data.length && data.getD i 0 = 32 then
      let cmd_start := i + 1
      let cmd_len := takeCount (data.drop cmd_start) 16 (fun b => 65 ≤ b && b ≤ 90)
      if cmd_len ≥ 2 then
        if is_imap_command ((data.drop cmd_start).take cmd_len) then validate_line data
        else false
      else false
    else false

/-- Request/status line scan of `validate_sip_line` / `validate_rtsp_line`:
`none` encodes the early `return false` on a non-printable byte, otherwise
`some end_of_line` (the index of the first CR/LF, or the window length). -/
def eolScan : List Nat → Nat → Option Nat
  | [], i => some i
  | b :: rest, i =>
    if b = 10 || b = 13 then some i
    else if b < 32 || b > 126 then none
    else eolScan rest (i + 1)

/-- Substring search `for i in 0..=(line.len() - pat.len())` guarded by
`line.len() > pat.len()`, from sip.rs / rtsp.rs. -/
def findSub (line pat : List Nat) : Bool :=
  if line.length > pat.length then
    (List.range (line.length - pat.length + 1)).any
      (fun i => (line.drop i).take pat.length = pat)
  else false

/-- `is_sip_request` from `src/protocols/sip.rs`. -/
def is_sip_request (data : List Nat) : Bool :=
  match data.getD 0 0 with
  | 73 => startsWith data (bytes "INVITE ") || startsWith data (bytes "INFO ")
  | 65 => startsWith data (bytes "ACK ")
  | 66 => startsWith data (bytes "BYE ")
  | 67 => startsWith data (bytes "CANCEL ")
  | 79 => startsWith data (bytes "OPTIONS ")
  | 82 => startsWith data (bytes "REGISTER ") || startsWith data (bytes "REFER ")
  | 80 => startsWith data (bytes "PRACK ") || startsWith data (bytes "PUBLISH ")
  | 85 => startsWith data (bytes "UPDATE ")
  | 83 => startsWith data (bytes "SUBSCRIBE ")
  | 78 => startsWith data (bytes "NOTIFY ")
  | 77 => startsWith data (bytes "MESSAGE ")
  | _ => false

/-- `validate_sip_line` from `src/protocols/sip.rs`. -/
def validate_sip_line (data : List Nat) (is_response : Bool) : Bool :=
  match eolScan (data.take (data.length.min 64)) 0 with
  | none => false
  | some end_of_line =>
    if is_response then true
    else findSub (data.take end_of_line) (bytes " SIP/2.0")

/-- `sip::detect` from `src/protocols/sip.rs`. -/
def sip_detect (data : List Nat) : Bool :=
  if data.length < 12 then false
  else if startsWith data (bytes "SIP/2.0 ") then validate_sip_line data true
  else if is_sip_request data then validate_sip_line data false
  else false

/-- `is_rtsp_request` from `src/protocols/rtsp.rs`. -/
def is_rtsp_request (data : List Nat) : Bool :=
  match data.getD 0 0 with
  | 79 => startsWith data (bytes "OPTIONS ")
  | 68 => startsWith data (bytes "DESCRIBE ")
  | 83 => startsWith data (bytes "SETUP ") || startsWith data (bytes "SET_PARAMETER ")
  | 80 => startsWith data (bytes "PLAY ") || startsWith data (bytes "PAUSE ")
  | 84 => startsWith data (bytes "TEARDOWN ")
  | 71 => startsWith data (bytes "GET_PARAMETER ")
  | 82 => startsWith data (bytes "REDIRECT ") || startsWith data (bytes "RECORD ")
  | 65 => startsWith data (bytes "ANNOUNCE ")
  | _ => false

/-- `validate_rtsp_line` from `src/protocols/rtsp.rs`. -/
def validate_rtsp_line (data : List Nat) (is_response : Bool) : Bool :=
  match eolScan (data.take (data.length.min 64)) 0 with
  | none => false
  | some end_of_line =>
    if is_response then true
    else
      findSub (data.take end_of_line) (bytes " RTSP/1.0")
        || findSub (data.take end_of_line) (bytes " RTSP/2.0")

/-- `rtsp::detect` from `src/protocols/rtsp.rs`. -/
def rtsp_detect (data : List Nat) : Bool :=
  if data.length < 14 then false
  else if startsWith data (bytes "RTSP/1.0 ") || startsWith data (bytes "RTSP/2.0 ") then
    validate_rtsp_line data true
  else if is_rtsp_request data then validate_rtsp_line data false
  else false

/-- `is_valid_handshake_type` from `src/protocols/tls.rs`. -/
def is_valid_handshake_type (ht : Nat) : Bool :=
  [0x00, 0x01, 0x02, 0x04, 0x05, 0x06, 0x08, 0x0b, 0x0c, 0x0d, 0x0e, 0x0f,
   0x10, 0x14, 0x18, 0x19, 0xfe].any (fun v => ht = v)

/-- `validate_handshake` from `src/protocols/tls.rs`. -/
def validate_handshake (data : List Nat) (record_length : Nat) : Bool :=
  if record_length < 4 then false
  else if data.length < 6 then true
  else
    let hs_type := data.getD 5 0
    if !is_valid_handshake_type hs_type then false
    else if data.length ≥ 9 then
      let hs_body_len := u32be 0 (data.getD 6 0) (data.getD 7 0) (data.getD 8 0)
      if hs_type = 0x01 || hs_type = 0x02 then
        if hs_body_len < 34 then false
        else if data.length ≥ 10 && data.getD 9 0 ≠ 0x03 then false
        else true
      else if hs_type = 0x0b then
        if hs_body_len < 3 then false else true
      else if hs_type = 0x00 || hs_type = 0x0e then
        if hs_body_len ≠ 0 then false else true
      else true
    else true

/-- `detect_tls_record` from `src/protocols/tls.rs`. -/
def detect_tls_record (data : List Nat) : Bool :=
  let content_type := data.getD 0 0
  if !(0x14 ≤ content_type && content_type ≤ 0x17) then false
  else if data.getD 1 0 ≠ 0x03 then false
  else if data.getD 2 0 > 0x04 then false
  else
    let record_length := u16be (data.getD 3 0) (data.getD 4 0)
    if record_length = 0 || record_length > 16384 then false
    else if content_type = 0x16 then validate_handshake data record_length
    else if content_type = 0x14 then record_length = 1
    else if content_type = 0x15 then record_length = 2
    else true

/-- `detect_sslv2` from `src/protocols/tls.rs`. -/
def detect_sslv2 (data : List Nat) : Bool :=
  if data.length < 11 then false
  else if data.getD 2 0 ≠ 0x01 then false
  else
    let valid_version := (data.getD 3 0 = 0x00 && data.getD 4 0 = 0x02)
      || (data.getD 3 0 = 0x03 && data.getD 4 0 ≤ 0x04)
    if !valid_version then false
    else
      let record_length := (data.getD 0 0 &&& 0x7F) * 256 + data.getD 1 0
      if record_length < 9 then false
      else
        let cipher_spec_len := u16be (data.getD 5 0) (data.getD 6 0)
        if cipher_spec_len = 0 || cipher_spec_len % 3 ≠ 0 then false
        else
          let session_id_len := u16be (data.getD 7 0) (data.getD 8 0)
          let challenge_len := u16be (data.getD 9 0) (data.getD 10 0)
          if challenge_len = 0 then false
          else if cipher_spec_len + session_id_len + challenge_len ≠ record_length - 9 then false
          else true

/-- `tls::detect` from `src/protocols/tls.rs`. -/
def tls_detect (data : List Nat) : Bool :=
  if data.length < 5 then false
  else if data.getD 0 0 &&& 0x80 ≠ 0 then detect_sslv2 data
  else detect_tls_record data

/-- `data` is a strict prefix of `full`. -/
def isProperStartOf (data full : List Nat) : Bool :=
  startsWith full data && data.length < full.length

/-- Substring containment (`pat` occurs somewhere in `l`). -/
def containsSeq (l pat : List Nat) : Bool :=
  if pat.length ≤ l.length then
    (List.range (l.length - pat.length + 1)).any (fun i => (l.drop i).take pat.length = pat)
  else false

/-- ASCII digit. -/
def isDigitByte (b : Nat) : Bool := 48 ≤ b && b ≤ 57

/-- ASCII alphanumeric. -/
def isAlnumByte (b : Nat) : Bool :=
  isDigitByte b || (65 ≤ b && b ≤ 90) || (97 ≤ b && b ≤ 122)

/-- The eight HTTP request methods, each with its trailing space. -/
def httpMethods : List (List Nat) :=
  [bytes "GET ", bytes "PUT ", bytes "POST ", bytes "HEAD ", bytes "DELETE ",
   bytes "OPTIONS ", bytes "PATCH ", bytes "CONNECT "]

/-- HTTP response status-line openers paired with the extracted version text. -/
def httpRespStarts : List (List Nat × String) :=
  [(bytes "HTTP/1.0 ", "1.0"), (bytes "HTTP/1.1 ", "1.1"),
   (bytes "HTTP/2.0 ", "2.0"), (bytes "HTTP/2 ", "2.0")]

/-- The HTTP/2 connection preface. -/
def h2Preface : List Nat := bytes "PRI * HTTP/2.0\r\n\r\nSM\r\n\r\n"

/-- Valid first byte of an HTTP request-target: `/`, `*`, or alphanumeric. -/
def isValidTargetByte (b : Nat) : Bool := b = 47 || b = 42 || isAlnumByte b

/-- Version extracted from a request line: ` HTTP/1.x` before the first LF, else unknown. -/
def httpReqVersion (data : List Nat) : ProtocolVersion :=
  let line := data.takeWhile (fun b => b ≠ 10)
  if containsSeq line (bytes " HTTP/1.1") then .Http "1.1"
  else if containsSeq line (bytes " HTTP/1.0") then .Http "1.0"
  else .Unknown

/-- Modelled from the spec: `http::probe`, referenced by `Protocol::probe_info`
but absent from the sources (`protocols/http.rs` only has a bool `detect`).
Per the spec's HTTP validator rules: match one of the eight methods followed by
a valid request-target start, a response status-line opener followed by a digit,
or the full H2 preface; a proper prefix of any of these (including the bare
`PRI ` start of the preface) is `Incomplete`; the version comes from the
status line or from ` HTTP/1.x` in the request line before the first LF. -/
def http_probe (data : List Nat) : DetectionStatus × ProtocolVersion :=
  if startsWith data h2Preface then (.Match, .Http "2.0")
  else if isProperStartOf data h2Preface then (.Incomplete, .Unknown)
  else
    match httpMethods.find? (fun m => startsWith data m) with
    | some m =>
      if data.length = m.length then (.Incomplete, .Unknown)
      else if isValidTargetByte (data.getD m.length 0) then (.Match, httpReqVersion data)
      else (.NoMatch, .Unknown)
    | none =>
      if httpMethods.any (fun m => isProperStartOf data m) then (.Incomplete, .Unknown)
      else
        match httpRespStarts.find? (fun rs => startsWith data rs.1) with
        | some rs =>
          if data.length = rs.1.length then (.Incomplete, .Unknown)
          else if isDigitByte (data.getD rs.1.length 0) then (.Match, .Http rs.2)
          else (.NoMatch, .Unknown)
        | none =>
          if httpRespStarts.any (fun rs => isProperStartOf data rs.1) then (.Incomplete, .Unknown)
          else (.NoMatch, .Unknown)

/-- Textual TLS version for a `0x03xx` minor byte. -/
def tlsMinorStr (minor : Nat) : String :=
  if minor = 0 then "3.0"
  else if minor = 1 then "1.0"
  else if minor = 2 then "1.1"
  else if minor = 3 then "1.2"
  else "1.3"

/-- Modelled from the spec: `tls::probe`, referenced by `Protocol::probe_info`
but absent from the sources. The acceptance rules of the spec's TLS validator
coincide with `protocols/tls.rs::detect`, which supplies the status; the
version is the record-layer version, overridden by the ClientHello legacy
version when its bytes are visible (SSLv2 version `0x0002` is reported as "2.0"). -/
def tls_probe (data : List Nat) : DetectionStatus × ProtocolVersion :=
  if tls_detect data then
    if data.getD 0 0 &&& 0x80 ≠ 0 then
      if data.getD 3 0 = 0x03 then (.Match, .Tls (tlsMinorStr (data.getD 4 0)))
      else (.Match, .Tls "2.0")
    else if data.getD 0 0 = 0x16 && data.getD 5 0 = 0x01
        && data.length ≥ 11 && data.getD 9 0 = 0x03 then
      (.Match, .Tls (tlsMinorStr (data.getD 10 0)))
    else (.Match, .Tls (tlsMinorStr (data.getD 2 0)))
  else (.NoMatch, .Unknown)

/-- The bytes after the `SSH-` prefix within the first 64 of the input. -/
def sshWindowTail (data : List Nat) : List Nat :=
  (data.take (data.length.min 64)).drop 4

/-- Identification-line scan of the modelled SSH probe: `none` on a byte that is
not printable ASCII, CR or tab; otherwise `some found_terminator`. -/
def sshScan : List Nat → Option Bool
  | [] => some false
  | b :: rest =>
    if b = 10 then some true
    else if b = 13 || b = 9 || (32 ≤ b && b ≤ 126) then sshScan rest
    else none

/-- Modelled from the spec: `ssh::probe`, referenced by `Protocol::probe_info`
but absent from the sources (`protocols/ssh.rs` only has a bool `detect`).
Per the spec's SSH validator rules: require prefix `SSH-`; with at least 8
bytes require `SSH-2.0-`, `SSH-1.99-` (mapped to "2.0") or `SSH-1.5-`;
validate bytes after the prefix up to the first LF within the first 64 as
printable ASCII, CR or tab; `Match` once a line terminator is seen or the
length is at least 16, otherwise `Incomplete` (the spec permits `Incomplete`
for bare 4–7 byte `SSH-` prefixes, which this model adopts). -/
def ssh_probe (data : List Nat) : DetectionStatus × ProtocolVersion :=
  if !startsWith data (bytes "SSH-") then (.NoMatch, .Unknown)
  else if 8 ≤ data.length then
    match (if startsWith data (bytes "SSH-2.0-") then some "2.0"
           else if startsWith data (bytes "SSH-1.99-") then some "2.0"
           else if startsWith data (bytes "SSH-1.5-") then some "1.5"
           else none) with
    | none => (.NoMatch, .Unknown)
    | some v =>
      match sshScan (sshWindowTail data) with
      | none => (.NoMatch, .Unknown)
      | some found_terminator =>
        if found_terminator || 16 ≤ data.length then (.Match, .Ssh v)
        else (.Incomplete, .Unknown)
  else (.Incomplete, .Unknown)

/-- A valid SSH identification start, as quantified by the spec: one of the
three version prefixes, with the visible continuation passing the
printable-ASCII/CR/tab scan. -/
def validSshStart (data : List Nat) : Bool :=
  (startsWith data (bytes "SSH-2.0-") || startsWith data (bytes "SSH-1.99-")
    || startsWith data (bytes "SSH-1.5-"))
  && (sshScan (sshWindowTail data)).isSome

/-- A line terminator is visible in the scanned identification window. -/
def sshTermSeen (data : List Nat) : Bool :=
  sshScan (sshWindowTail data) == some true

/-- RESP type markers (RESP2: `+ - : $ *`; RESP3: `_ , # ! = ( % ~ >`). -/
def isRespMarker (b : Nat) : Bool :=
  [43, 45, 58, 36, 42, 95, 44, 35, 33, 61, 40, 37, 126, 62].any (fun m => b = m)

/-- RESP major version announced by a marker byte: 2 for the RESP2 markers, 3 otherwise. -/
def respVersionOf (b : Nat) : Nat :=
  if [43, 45, 58, 36, 42].any (fun m => b = m) then 2 else 3

/-- Second-byte grammar of the modelled Redis probe, per the spec:
`+`/`-` need printable ASCII or CR; `:`/`$`/`*`/`(` need a digit or `-`;
`#` needs `t` or `f`; `_` needs CR; `,` needs digit/sign/`i`/`n`;
`! = % ~ >` need a digit. -/
def respSecondOk (b c : Nat) : Bool :=
  if b = 43 || b = 45 then (32 ≤ c && c ≤ 126) || c = 13
  else if b = 58 || b = 36 || b = 42 || b = 40 then isDigitByte c || c = 45
  else if b = 35 then c = 116 || c = 102
  else if b = 95 then c = 13
  else if b = 44 then isDigitByte c || c = 43 || c = 45 || c = 105 || c = 110
  else isDigitByte c

/-- Modelled from the spec: `redis::probe`, referenced by `Protocol::probe_info`
but absent from the sources (`protocols/redis.rs` only has a bool `detect`
with different, terminator-based rules). Per the spec's Redis validator: the
first byte must be a RESP type marker; with a second byte visible it is
cross-validated against the marker's grammar and the result is `Match` with
`Redis(2)` or `Redis(3)`; with only the marker byte visible it is `Incomplete`. -/
def redis_probe : List Nat → DetectionStatus × ProtocolVersion
  | [] => (.Incomplete, .Unknown)
  | [b] => if isRespMarker b then (.Incomplete, .Unknown) else (.NoMatch, .Unknown)
  | b :: c :: _ =>
    if isRespMarker b then
      if respSecondOk b c then (.Match, .Redis (respVersionOf b))
      else (.NoMatch, .Unknown)
    else (.NoMatch, .Unknown)

/-- `bool_to_status` from `src/lib.rs`. -/
def bool_to_status (b : Bool) : DetectionStatus :=
  if b then .Match else .NoMatch

/-- `Protocol::min_bytes` from `src/lib.rs`. -/
def Protocol.min_bytes : Protocol → Nat
  | .Http => 4
  | .Tls => 5
  | .Ssh => 4
  | .Dns => 12
  | .Quic => 7
  | .Mysql => 10
  | .Postgres => 8
  | .Redis => 1
  | .Mqtt => 12
  | .Smtp => 5
  | .Pop3 => 5
  | .Imap => 5
  | .Ftp => 5
  | .Smb => 4
  | .Stun => 20
  | .Sip => 12
  | .Rtsp => 14
  | .Dhcp => 44
  | .Ntp => 48

/-- The per-protocol dispatch of `Protocol::probe_info` (the `match self` body). -/
def probeDispatch : Protocol → List Nat → DetectionStatus × ProtocolVersion
  | .Http, data => http_probe data
  | .Tls, data => tls_probe data
  | .Ssh, data => ssh_probe data
  | .Redis, data => redis_probe data
  | .Dns, data => (bool_to_status (dns_detect data), .Unknown)
  | .Quic, data => (bool_to_status (quic_detect data), .Unknown)
  | .Mysql, data => (bool_to_status (mysql_detect data), .Unknown)
  | .Postgres, data => (bool_to_status (postgres_detect data), .Unknown)
  | .Mqtt, data => (bool_to_status (mqtt_detect data), .Unknown)
  | .Smtp, data => (bool_to_status (smtp_detect data), .Unknown)
  | .Pop3, data => (bool_to_status (pop3_detect data), .Unknown)
  | .Imap, data => (bool_to_status (imap_detect data), .Unknown)
  | .Ftp, data => (bool_to_status (ftp_detect data), .Unknown)
  | .Smb, data => (bool_to_status (smb_detect data), .Unknown)
  | .Stun, data => (bool_to_status (stun_detect data), .Unknown)
  | .Sip, data => (bool_to_status (sip_detect data), .Unknown)
  | .Rtsp, data => (bool_to_status (rtsp_detect data), .Unknown)
  | .Dhcp, data => (bool_to_status (dhcp_detect data), .Unknown)
  | .Ntp, data => (bool_to_status (ntp_detect data), .Unknown)

/-- `Protocol::probe_info` from `src/lib.rs`. -/
def Protocol.probe_info (p : Protocol) (data : List Nat) :
    DetectionStatus × ProtocolVersion :=
  if data.length < p.min_bytes then (.Incomplete, .Unknown)
  else probeDispatch p data

/-- `Protocol::probe` from `src/lib.rs`. -/
def Protocol.probe (p : Protocol) (data : List Nat) : DetectionStatus :=
  match p.probe_info data with
  | (.Match, _) => .Match
  | (status, _) => status

/-- `Protocol::detect` from `src/lib.rs`: `Ok(matches!(self.probe(data), Match))`. -/
def Protocol.detect (p : Protocol) (data : List Nat) : DetectionResult Bool :=
  .ok (p.probe data == .Match)

/-- `ProtocolSet` from `src/detector.rs` (one flag per compiled protocol). -/
structure ProtocolSet where
  http : Bool := false
  imap : Bool := false
  tls : Bool := false
  ssh : Bool := false
  dns : Bool := false
  ftp : Bool := false
  dhcp : Bool := false
  ntp : Bool := false
  quic : Bool := false
  mysql : Bool := false
  postgres : Bool := false
  redis : Bool := false
  mqtt : Bool := false
  smtp : Bool := false
  pop3 : Bool := false
  smb : Bool := false
  sip : Bool := false
  rtsp : Bool := false
  stun : Bool := false
  deriving DecidableEq, Repr

/-- The flag of `ProtocolSet` that guards a given protocol in `detect_info`. -/
def ProtocolSet.contains (s : ProtocolSet) : Protocol → Bool
  | .Http => s.http
  | .Tls => s.tls
  | .Ssh => s.ssh
  | .Dns => s.dns
  | .Quic => s.quic
  | .Mysql => s.mysql
  | .Postgres => s.postgres
  | .Redis => s.redis
  | .Mqtt => s.mqtt
  | .Smtp => s.smtp
  | .Pop3 => s.pop3
  | .Imap => s.imap
  | .Ftp => s.ftp
  | .Smb => s.smb
  | .Stun => s.stun
  | .Sip => s.sip
  | .Rtsp => s.rtsp
  | .Dhcp => s.dhcp
  | .Ntp => s.ntp

/-- `ProtocolVersionSet` from `src/detector.rs`. -/
structure ProtocolVersionSet where
  http : Option String := none
  tls : Option String := none
  ssh : Option String := none
  redis : Option Nat := none
  deriving DecidableEq, Repr

/-- `ProtocolDetector` from `src/detector.rs`. The transport marker is a
phantom type parameter in the source and plays no role in detection, so it
is dropped here. -/
structure ProtocolDetector where
  enabled : ProtocolSet
  priority_order : Option (List Protocol) := none
  max_inspect_bytes : Nat := 64
  expected_versions : ProtocolVersionSet := {}
  deriving DecidableEq, Repr

/-- `ProtocolDetector::check_protocol` from `src/detector.rs`: probe, then
coerce a `Match` to `NoMatch` when an expected version is set for the
protocol's own version variant and the values differ. -/
def check_protocol (d : ProtocolDetector) (p : Protocol) (data : List Nat) :
    DetectionStatus × ProtocolVersion :=
  let sv := p.probe_info data
  let status := sv.1
  let version := sv.2
  if status = .Match then
    match p, version with
    | .Http, .Http v =>
      match d.expected_versions.http with
      | some expected => if v ≠ expected then (.NoMatch, .Unknown) else (status, version)
      | none => (status, version)
    | .Tls, .Tls v =>
      match d.expected_versions.tls with
      | some expected => if v ≠ expected then (.NoMatch, .Unknown) else (status, version)
      | none => (status, version)
    | .Ssh, .Ssh v =>
      match d.expected_versions.ssh with
      | some expected => if v ≠ expected then (.NoMatch, .Unknown) else (status, version)
      | none => (status, version)
    | .Redis, .Redis v =>
      match d.expected_versions.redis with
      | some expected => if v ≠ expected then (.NoMatch, .Unknown) else (status, version)
      | none => (status, version)
    | _, _ => (status, version)
  else (status, version)

/-- The per-protocol loop body of `detect_info`, iterated over a protocol list
with the `any_incomplete` flag: first `Match` returns, `Incomplete` sets the
flag, `NoMatch` continues; at the end the flag selects `InsufficientData`
versus `Ok(None)`. -/
def detectLoop (d : ProtocolDetector) (w : List Nat) :
    List Protocol → Bool → DetectionResult (Option ProtocolInfo)
  | [], any_incomplete =>
    if any_incomplete then .error .InsufficientData else .ok none
  | p :: rest, any_incomplete =>
    match check_protocol d p w with
    | (.Match, version) => .ok (some ⟨p, version⟩)
    | (.Incomplete, _) => detectLoop d w rest true
    | (.NoMatch, _) => detectLoop d w rest any_incomplete

/-- The sequence of `if self.enabled.x { ... }` blocks in the default branch of
`ProtocolDetector::detect_info` (`src/detector.rs` lines 149-395), in source
order. -/
def defaultOrder : List Protocol :=
  [.Ssh, .Sip, .Rtsp, .Imap, .Tls, .Http, .Dns, .Smtp, .Ftp, .Dhcp, .Ntp,
   .Quic, .Mysql, .Postgres, .Redis, .Mqtt, .Pop3, .Smb, .Stun]

/-- The truncated window `&data[..data.len().min(max_inspect_bytes)]`. -/
def window (d : ProtocolDetector) (data : List Nat) : List Nat :=
  data.take (data.length.min d.max_inspect_bytes)

/-- `ProtocolDetector::detect_info` from `src/detector.rs`: truncate to the
window, then run either the explicit priority order (each entry processed
unconditionally) or the default blocks (each guarded by its enabled flag). -/
def ProtocolDetector.detect_info (d : ProtocolDetector) (data : List Nat) :
    DetectionResult (Option ProtocolInfo) :=
  let w := window d data
  match d.priority_order with
  | some order => detectLoop d w order false
  | none => detectLoop d w (defaultOrder.filter (fun p => d.enabled.contains p)) false

/-- `ProtocolDetector::detect` from `src/detector.rs`. -/
def ProtocolDetector.detect (d : ProtocolDetector) (data : List Nat) :
    DetectionResult (Option Protocol) :=
  (d.detect_info data).map (fun opt => opt.map (fun info => info.protocol))

/-- `ProtocolDetector::with_order` from `src/detector.rs` (used by the chain
builder): enables exactly the listed protocols and stores the explicit order. -/
def ProtocolDetector.with_order (order : List Protocol) (max_inspect_bytes : Nat) :
    ProtocolDetector :=
  let enabled := order.foldl
    (fun s p =>
      match p with
      | .Http => { s with http := true }
      | .Tls => { s with tls := true }
      | .Ssh => { s with ssh := true }
      | .Dns => { s with dns := true }
      | .Quic => { s with quic := true }
      | .Mysql => { s with mysql := true }
      | .Postgres => { s with postgres := true }
      | .Redis => { s with redis := true }
      | .Mqtt => { s with mqtt := true }
      | .Smtp => { s with smtp := true }
      | .Pop3 => { s with pop3 := true }
      | .Imap => { s with imap := true }
      | .Ftp => { s with ftp := true }
      | .Smb => { s with smb := true }
      | .Stun => { s with stun := true }
      | .Sip => { s with sip := true }
      | .Rtsp => { s with rtsp := true }
      | .Dhcp => { s with dhcp := true }
      | .Ntp => { s with ntp := true })
    ({} : ProtocolSet)
  { enabled := enabled, priority_order := some order,
    max_inspect_bytes := max_inspect_bytes, expected_versions := {} }

/-- The iteration order the engine follows: the caller's priority order when
present, else the default order restricted to enabled protocols. -/
def effectiveOrder (d : ProtocolDetector) : List Protocol :=
  match d.priority_order with
  | some order => order
  | none => defaultOrder.filter (fun p => d.enabled.contains p)

/-- The spec's description of the detection algorithm (§4.3): over the window
and the effective order, return `Ok(Some(...))` for the first protocol whose
check yields `Match`; else `InsufficientData` if any check yielded
`Incomplete`; else `Ok(None)`. Stated from the spec's words, to be compared
with `ProtocolDetector.detect_info`. -/
def specDetectInfo (d : ProtocolDetector) (data : List Nat) :
    DetectionResult (Option ProtocolInfo) :=
  let w := window d data
  let ps := effectiveOrder d
  match ps.find? (fun p => (check_protocol d p w).1 == .Match) with
  | some p => .ok (some ⟨p, (check_protocol d p w).2⟩)
  | none =>
    if ps.any (fun p => (check_protocol d p w).1 == .Incomplete) then
      .error .InsufficientData
    else .ok none

/-- The version returned by a protocol's probe differs, as the protocol's own
typed version payload, from a configured expected version. The `check_protocol`
filter only fires for these typed pairings. -/
def versionMismatch (d : ProtocolDetector) (p : Protocol) (v : ProtocolVersion) : Prop :=
  match p, v with
  | .Http, .Http s => ∃ e, d.expected_versions.http = some e ∧ s ≠ e
  | .Tls, .Tls s => ∃ e, d.expected_versions.tls = some e ∧ s ≠ e
  | .Ssh, .Ssh s => ∃ e, d.expected_versions.ssh = some e ∧ s ≠ e
  | .Redis, .Redis n => ∃ e, d.expected_versions.redis = some e ∧ n ≠ e
  | _, _ => False

/-! ### Concrete configurations used by witnesses and counterexamples -/

/-- A detector with only HTTP enabled (builder path, defaults). -/
def httpOnly : ProtocolDetector := { enabled := { http := true } }

/-- The enabled set of a UDP detector with all UDP protocols on. -/
def allUdpSet : ProtocolSet :=
  { dns := true, quic := true, dhcp := true, ntp := true, stun := true,
    sip := true, rtsp := true }

/-- A UDP detector with all UDP protocols enabled and no explicit priority order. -/
def udpAllDetector : ProtocolDetector := { enabled := allUdpSet }

/-- A 48-byte datagram that is simultaneously a valid NTP packet
(version 1, mode 3, stratum 1, non-zero transmit timestamp) and a valid STUN
message (magic cookie at offsets 4..8, zero top bits, length 0). -/
def c4input : List Nat :=
  [0x0B, 0x01, 0x00, 0x00, 0x21, 0x12, 0xA4, 0x42] ++ List.replicate 39 0 ++ [1]

/-- A detector expecting HTTP version "1.1". -/
def httpV11Detector : ProtocolDetector :=
  { enabled := { http := true }, expected_versions := { http := some "1.1" } }

/-- A detector expecting HTTP version "1.0". -/
def httpV10Detector : ProtocolDetector :=
  { enabled := { http := true }, expected_versions := { http := some "1.0" } }

/-! ### Supporting lemmas -/

theorem probe_info_short (p : Protocol) (data : List Nat)
    (h : data.length < p.min_bytes) :
    p.probe_info data = (.Incomplete, .Unknown) := by
  unfold Protocol.probe_info
  rw [if_pos h]

theorem bool_to_status_cases (b : Bool) :
    bool_to_status b = .Match ∨ bool_to_status b = .NoMatch := by
  cases b <;> simp [bool_to_status]

theorem startsWith_length : ∀ (d p : List Nat), startsWith d p = true → p.length ≤ d.length
  | _, [], _ => by simp
  | [], _ :: _, h => by simp [startsWith] at h
  | _ :: ds, _ :: ps, h => by
    simp only [startsWith, Bool.and_eq_true] at h
    simpa using startsWith_length ds ps h.2

theorem startsWith_take : ∀ (d p : List Nat) (k : Nat),
    startsWith d p = true → startsWith d (p.take k) = true
  | _, [], _, _ => by simp [List.take_nil, startsWith]
  | [], _ :: _, _, h => by simp [startsWith] at h
  | d :: ds, p :: ps, 0, _ => by simp [startsWith]
  | d :: ds, p :: ps, k + 1, h => by
    simp only [startsWith, Bool.and_eq_true] at h
    simp only [List.take_succ_cons, startsWith, Bool.and_eq_true]
    exact ⟨h.1, startsWith_take ds ps k h.2⟩

theorem detectLoop_eq (d : ProtocolDetector) (w : List Nat) (ps : List Protocol)
    (inc : Bool) :
    detectLoop d w ps inc =
      match ps.find? (fun p => (check_protocol d p w).1 == DetectionStatus.Match) with
      | some p => Except.ok (some ⟨p, (check_protocol d p w).2⟩)
      | none =>
        if inc || ps.any (fun p => (check_protocol d p w).1 == DetectionStatus.Incomplete)
        then Except.error DetectionError.InsufficientData
        else Except.ok none := by
  induction ps generalizing inc with
  | nil => cases inc <;> simp [detectLoop]
  | cons p rest ih =>
    cases hcp : check_protocol d p w with
    | mk status version =>
      cases status with
      | Match =>
        simp [detectLoop, hcp, List.find?_cons]
      | Incomplete =>
        rw [detectLoop, hcp, ih true]
        cases hf : List.find? (fun p => (check_protocol d p w).1 == DetectionStatus.Match) rest <;>
          simp [List.find?_cons, List.any_cons, hcp, hf]
      | NoMatch =>
        rw [detectLoop, hcp, ih inc]
        cases hf : List.find? (fun p => (check_protocol d p w).1 == DetectionStatus.Match) rest <;>
          simp [List.find?_cons, List.any_cons, hcp, hf]

theorem detectLoop_not_protocol_disabled (d : ProtocolDetector) (w : List Nat) :
    ∀ (ps : List Protocol) (inc : Bool) (p : Protocol),
      detectLoop d w ps inc ≠ .error (.ProtocolNotEnabled p)
  | [], inc, p => by cases inc <;> simp [detectLoop]
  | q :: rest, inc, p => by
    rw [detectLoop]
    cases hcp : check_protocol d q w with
    | mk status version =>
      cases status with
      | Match => simp
      | Incomplete => exact detectLoop_not_protocol_disabled d w rest true p
      | NoMatch => exact detectLoop_not_protocol_disabled d w rest inc p

theorem detectLoop_all_incomplete (d : ProtocolDetector) (w : List Nat)
    (hall : ∀ p, check_protocol d p w = (.Incomplete, .Unknown)) :
    ∀ (ps : List Protocol) (inc : Bool), ps ≠ [] ∨ inc = true →
      detectLoop d w ps inc = .error .InsufficientData
  | [], inc, h => by
    rcases h with h | h
    · exact absurd rfl h
    · subst h; simp [detectLoop]
  | p :: rest, inc, _ => by
    rw [detectLoop, hall p]
    exact detectLoop_all_incomplete d w hall rest true (Or.inr rfl)

theorem detectLoop_no_match_protocol (d : ProtocolDetector) (w : List Nat) (p : Protocol)
    (hne : ∀ v, check_protocol d p w ≠ (.Match, v)) :
    ∀ (ps : List Protocol) (inc : Bool) (v : ProtocolVersion),
      detectLoop d w ps inc ≠ .ok (some ⟨p, v⟩)
  | [], inc, v => by cases inc <;> simp [detectLoop]
  | q :: rest, inc, v => by
    rw [detectLoop]
    cases hcp : check_protocol d q w with
    | mk status version =>
      cases status with
      | Match =>
        intro h
        simp only [Except.ok.injEq, Option.some.injEq, ProtocolInfo.mk.injEq] at h
        obtain ⟨hq, hv⟩ := h
        subst hq
        exact hne version hcp
      | Incomplete => exact detectLoop_no_match_protocol d w p hne rest true v
      | NoMatch => exact detectLoop_no_match_protocol d w p hne rest inc v

/-! ### Claim theorems -/

/-- C1: for every detector configuration and input, `detect_info` iterates the
configured protocols in order and returns `Ok(Some(...))` for the first
protocol whose check yields `Match`; with no `Match` it returns
`InsufficientData` exactly when some check yielded `Incomplete` and `Ok(None)`
otherwise; and it never returns the `ProtocolNotEnabled` error. -/
theorem detect_info_first_match_semantics (d : ProtocolDetector) (data : List Nat) :
    d.detect_info data = specDetectInfo d data ∧
      ∀ p, d.detect_info data ≠ .error (.ProtocolNotEnabled p) := by
  constructor
  · cases hpo : d.priority_order with
    | none =>
      simp [ProtocolDetector.detect_info, specDetectInfo, effectiveOrder, hpo, detectLoop_eq]
    | some order =>
      simp [ProtocolDetector.detect_info, specDetectInfo, effectiveOrder, hpo, detectLoop_eq]
  · intro p
    unfold ProtocolDetector.detect_info
    cases d.priority_order with
    | none => exact detectLoop_not_protocol_disabled d _ _ _ p
    | some order => exact detectLoop_not_protocol_disabled d _ _ _ p

/-- C2: for every protocol and every input shorter than the protocol's
`min_bytes`, `probe_info` returns `(Incomplete, Unknown)`. -/
theorem min_bytes_incomplete_contract (p : Protocol) (data : List Nat)
    (h : data.length < p.min_bytes) :
    p.probe_info data = (.Incomplete, .Unknown) :=
  probe_info_short p data h

theorem min_bytes_incomplete_contract_w :
    ([] : List Nat).length < Protocol.Http.min_bytes ∧
      Protocol.Http.probe_info [] = (.Incomplete, .Unknown) :=
  ⟨by decide, min_bytes_incomplete_contract .Http [] (by decide)⟩

/-- C3: truncation invariance — whenever `max_inspect_bytes ≤ n ≤ len(data)`,
`detect` on the full input equals `detect` on the first `n` bytes. -/
theorem detect_truncation_invariance (d : ProtocolDetector) (data : List Nat) (n : Nat)
    (h1 : d.max_inspect_bytes ≤ n) (h2 : n ≤ data.length) :
    d.detect data = d.detect (data.take n) := by
  have hw : window d (data.take n) = window d data := by
    unfold window
    rw [List.length_take, List.take_take]
    congr 1
    simp only [Nat.min_def, min_def]
    split_ifs <;> omega
  unfold ProtocolDetector.detect ProtocolDetector.detect_info
  rw [hw]

theorem detect_truncation_invariance_w :
    (httpOnly.max_inspect_bytes ≤ 65 ∧ 65 ≤ (List.replicate 70 0 : List Nat).length) ∧
      httpOnly.detect (List.replicate 70 0) = httpOnly.detect ((List.replicate 70 0).take 65) :=
  ⟨⟨by decide, by decide⟩,
    detect_truncation_invariance httpOnly (List.replicate 70 0) 65 (by decide) (by decide)⟩

/-- C5 counterexample: on data shorter than `min_bytes`, `Protocol::detect`
returns `Ok(false)` rather than failing with `InsufficientData` (and the
`InsufficientData` variant carries no byte counts at all). -/
theorem detect_single_short_cex :
    ([] : List Nat).length < Protocol.Http.min_bytes ∧
      Protocol.Http.detect [] = .ok false ∧
      Protocol.Http.detect [] ≠ .error .InsufficientData := by
  refine ⟨by decide, by decide, by decide⟩

/-- C5 amended: on data shorter than `min_bytes(P)`, `Protocol::detect`
returns `Ok(false)` (the probe reports `Incomplete`, which is not `Match`);
it never produces an error, and `InsufficientData` carries no payload. -/
theorem detect_single_short_ok_false (p : Protocol) (data : List Nat)
    (h : data.length < p.min_bytes) :
    p.detect data = .ok false := by
  unfold Protocol.detect Protocol.probe
  rw [probe_info_short p data h]
  rfl

theorem detect_single_short_ok_false_w :
    ([0x47] : List Nat).length < Protocol.Http.min_bytes ∧
      Protocol.Http.detect [0x47] = .ok false :=
  ⟨by decide, detect_single_short_ok_false .Http [0x47] (by decide)⟩

/-- C4 counterexample: a UDP detector with no explicit priority order does not
probe in the claimed order DNS, STUN, DHCP, NTP, QUIC, SIP, RTSP. On a datagram
that is both a valid NTP packet and a valid STUN message, the engine returns
NTP, while a loop following the claimed order would return STUN. -/
theorem default_order_udp_cex :
    udpAllDetector.priority_order = none ∧
      udpAllDetector.detect_info c4input = .ok (some ⟨.Ntp, .Unknown⟩) ∧
      detectLoop udpAllDetector (window udpAllDetector c4input)
        [.Dns, .Stun, .Dhcp, .Ntp, .Quic, .Sip, .Rtsp] false =
        .ok (some ⟨.Stun, .Unknown⟩) :=
  ⟨rfl, by decide, by decide⟩

/-- C4 amended: the default iteration order is the single source-order sequence
SSH, SIP, RTSP, IMAP, TLS, HTTP, DNS, SMTP, FTP, DHCP, NTP, QUIC, MySQL,
PostgreSQL, Redis, MQTT, POP3, SMB, STUN restricted to the enabled set,
regardless of transport; in particular a UDP detector with all UDP protocols
enabled probes them in the order SIP, RTSP, DNS, DHCP, NTP, QUIC, STUN. -/
theorem default_order_transport_free (d : ProtocolDetector) (data : List Nat)
    (h1 : d.priority_order = none) (h2 : d.enabled = allUdpSet) :
    d.detect_info data =
      detectLoop d (window d data)
        [.Sip, .Rtsp, .Dns, .Dhcp, .Ntp, .Quic, .Stun] false := by
  unfold ProtocolDetector.detect_info
  rw [h1, h2]
  rfl

theorem default_order_transport_free_w :
    (udpAllDetector.priority_order = none ∧ udpAllDetector.enabled = allUdpSet) ∧
      udpAllDetector.detect_info c4input =
        detectLoop udpAllDetector (window udpAllDetector c4input)
          [.Sip, .Rtsp, .Dns, .Dhcp, .Ntp, .Quic, .Stun] false :=
  ⟨⟨rfl, rfl⟩, default_order_transport_free udpAllDetector c4input rfl rfl⟩

/-- C9: with `max_inspect_bytes = 0` and at least one protocol enabled (or a
non-empty chain order), `detect_info` returns `InsufficientData` on every
input, since the empty window is below every protocol's positive `min_bytes`. -/
theorem max_inspect_zero_insufficient (d : ProtocolDetector) (data : List Nat)
    (h0 : d.max_inspect_bytes = 0)
    (hne : match d.priority_order with
           | some order => order ≠ []
           | none => ∃ p, d.enabled.contains p = true) :
    d.detect_info data = .error .InsufficientData := by
  have hw : window d data = [] := by
    unfold window
    rw [h0]
    simp
  have hcp : ∀ p, check_protocol d p ([] : List Nat) = (.Incomplete, .Unknown) := by
    intro p
    have hlen : ([] : List Nat).length < p.min_bytes := by
      cases p <;> simp [Protocol.min_bytes]
    unfold check_protocol
    rw [probe_info_short p [] hlen]
    simp
  unfold ProtocolDetector.detect_info
  rw [hw]
  cases hpo : d.priority_order with
  | some order =>
    rw [hpo] at hne
    exact detectLoop_all_incomplete d [] hcp order false (Or.inl hne)
  | none =>
    rw [hpo] at hne
    obtain ⟨p, hp⟩ := hne
    have hmem : p ∈ defaultOrder := by cases p <;> decide
    have hfil : p ∈ defaultOrder.filter (fun q => d.enabled.contains q) :=
      List.mem_filter.mpr ⟨hmem, hp⟩
    exact detectLoop_all_incomplete d [] hcp _ false (Or.inl (List.ne_nil_of_mem hfil))

theorem max_inspect_zero_insufficient_w :
    (({ enabled := { http := true }, max_inspect_bytes := 0 } :
        ProtocolDetector).max_inspect_bytes = 0) ∧
      ({ enabled := { http := true }, max_inspect_bytes := 0 } :
        ProtocolDetector).detect_info (bytes "GET / HTTP/1.1\r\n") =
        .error .InsufficientData :=
  ⟨rfl, max_inspect_zero_insufficient _ _ rfl ⟨.Http, rfl⟩⟩

/-- C6: every input of length at least 2 whose first byte is a RESP type marker
and whose second byte satisfies that marker's grammar is a Redis `Match`, with
version `Redis(2)` or `Redis(3)` according to the marker; the marker byte alone
is `Incomplete`. -/
theorem redis_two_byte_rule (b c : Nat) (rest : List Nat)
    (hb : isRespMarker b = true) (hc : respSecondOk b c = true) :
    Protocol.Redis.probe_info (b :: c :: rest) = (.Match, .Redis (respVersionOf b)) ∧
      (respVersionOf b = 2 ∨ respVersionOf b = 3) ∧
      Protocol.Redis.probe_info [b] = (.Incomplete, .Unknown) := by
  refine ⟨?_, ?_, ?_⟩
  · unfold Protocol.probe_info
    rw [if_neg (by simp [Protocol.min_bytes])]
    show redis_probe (b :: c :: rest) = _
    simp [redis_probe, hb, hc]
  · unfold respVersionOf
    split_ifs <;> simp
  · unfold Protocol.probe_info
    rw [if_neg (by simp [Protocol.min_bytes])]
    show redis_probe [b] = _
    simp [redis_probe, hb]

theorem redis_two_byte_rule_w :
    (isRespMarker 43 = true ∧ respSecondOk 43 79 = true) ∧
      Protocol.Redis.probe_info [43, 79] = (.Match, .Redis 2) ∧
      Protocol.Redis.probe_info [43] = (.Incomplete, .Unknown) :=
  have h := redis_two_byte_rule 43 79 [] (by decide) (by decide)
  ⟨⟨by decide, by decide⟩, h.1, h.2.2⟩

/-- C10 counterexample: the Redis probe on the single marker byte `+` has
length equal to `min_bytes(Redis) = 1` and yet returns `Incomplete`, so a
validator can return `Incomplete` on input of length at least its minimum. -/
theorem probe_incomplete_at_min_cex :
    Protocol.Redis.min_bytes ≤ ([43] : List Nat).length ∧
      (Protocol.Redis.probe_info [43]).1 = .Incomplete :=
  ⟨by decide, by decide⟩

/-- C10 amended: for every protocol other than HTTP, TLS, SSH and Redis (whose
probes are three-valued), `probe_info` on input of length at least `min_bytes`
returns `Match` or `NoMatch`, never `Incomplete` — these probes dispatch
through `bool_to_status`. The engine can therefore report `InsufficientData`
only when some checked protocol returned `Incomplete` on the window, which for
these protocols requires the window to be shorter than their `min_bytes`. -/
theorem bool_probe_never_incomplete (p : Protocol) (data : List Nat)
    (hp : p ≠ .Http ∧ p ≠ .Tls ∧ p ≠ .Ssh ∧ p ≠ .Redis)
    (h : p.min_bytes ≤ data.length) :
    (p.probe_info data).1 = .Match ∨ (p.probe_info data).1 = .NoMatch := by
  obtain ⟨h1, h2, h3, h4⟩ := hp
  have hni : ¬ data.length < p.min_bytes := by omega
  unfold Protocol.probe_info
  rw [if_neg hni]
  cases p
  case Http => exact absurd rfl h1
  case Tls => exact absurd rfl h2
  case Ssh => exact absurd rfl h3
  case Redis => exact absurd rfl h4
  case Dns => exact bool_to_status_cases _
  case Quic => exact bool_to_status_cases _
  case Mysql => exact bool_to_status_cases _
  case Postgres => exact bool_to_status_cases _
  case Mqtt => exact bool_to_status_cases _
  case Smtp => exact bool_to_status_cases _
  case Pop3 => exact bool_to_status_cases _
  case Imap => exact bool_to_status_cases _
  case Ftp => exact bool_to_status_cases _
  case Smb => exact bool_to_status_cases _
  case Stun => exact bool_to_status_cases _
  case Sip => exact bool_to_status_cases _
  case Rtsp => exact bool_to_status_cases _
  case Dhcp => exact bool_to_status_cases _
  case Ntp => exact bool_to_status_cases _

theorem bool_probe_never_incomplete_w :
    (Protocol.Dns.min_bytes ≤ (List.replicate 12 0 : List Nat).length) ∧
      ((Protocol.Dns.probe_info (List.replicate 12 0)).1 = .Match ∨
        (Protocol.Dns.probe_info (List.replicate 12 0)).1 = .NoMatch) :=
  ⟨by decide,
    bool_probe_never_incomplete .Dns (List.replicate 12 0)
      ⟨by decide, by decide, by decide, by decide⟩ (by decide)⟩

/-- C7: on every input beginning with a valid SSH identification prefix whose
visible continuation is printable ASCII/CR/tab, the SSH validator returns
`Match` exactly when a line terminator has been seen or the length is at least
16, and returns `Incomplete` when neither holds. -/
theorem ssh_match_terminator (data : List Nat) (h : validSshStart data = true) :
    ((Protocol.Ssh.probe_info data).1 = .Match ↔
      (sshTermSeen data = true ∨ 16 ≤ data.length)) ∧
      ((sshTermSeen data = false ∧ data.length < 16) →
        (Protocol.Ssh.probe_info data).1 = .Incomplete) := by
  unfold validSshStart at h
  rw [Bool.and_eq_true, Bool.or_eq_true, Bool.or_eq_true] at h
  obtain ⟨hpre, hscan⟩ := h
  have hlen8 : 8 ≤ data.length := by
    rcases hpre with (h20 | h199) | h15
    · have hl := startsWith_length data (bytes "SSH-2.0-") h20
      have e : (bytes "SSH-2.0-").length = 8 := by decide
      omega
    · have hl := startsWith_length data (bytes "SSH-1.99-") h199
      have e : (bytes "SSH-1.99-").length = 9 := by decide
      omega
    · have hl := startsWith_length data (bytes "SSH-1.5-") h15
      have e : (bytes "SSH-1.5-").length = 8 := by decide
      omega
  have h4 : startsWith data (bytes "SSH-") = true := by
    rcases hpre with (h20 | h199) | h15
    · have ht := startsWith_take data (bytes "SSH-2.0-") 4 h20
      have e : (bytes "SSH-2.0-").take 4 = bytes "SSH-" := by decide
      rwa [e] at ht
    · have ht := startsWith_take data (bytes "SSH-1.99-") 4 h199
      have e : (bytes "SSH-1.99-").take 4 = bytes "SSH-" := by decide
      rwa [e] at ht
    · have ht := startsWith_take data (bytes "SSH-1.5-") 4 h15
      have e : (bytes "SSH-1.5-").take 4 = bytes "SSH-" := by decide
      rwa [e] at ht
  have hmin : ¬ data.length < Protocol.Ssh.min_bytes := by
    have e : Protocol.Ssh.min_bytes = 4 := rfl
    omega
  cases hch : (if startsWith data (bytes "SSH-2.0-") = true then some "2.0"
      else if startsWith data (bytes "SSH-1.99-") = true then some "2.0"
      else if startsWith data (bytes "SSH-1.5-") = true then some "1.5"
      else none) with
  | none =>
    exfalso
    split_ifs at hch with a1 a2 a3
    rcases hpre with (h20 | h199) | h15
    · exact a1 h20
    · exact a2 h199
    · exact a3 h15
  | some v =>
    cases hsc : sshScan (sshWindowTail data) with
    | none => rw [hsc] at hscan; simp at hscan
    | some ft =>
      have heq : Protocol.Ssh.probe_info data =
          if ft || 16 ≤ data.length then (.Match, .Ssh v)
          else (.Incomplete, .Unknown) := by
        unfold Protocol.probe_info
        rw [if_neg hmin]
        show ssh_probe data = _
        unfold ssh_probe
        rw [h4]
        simp only [Bool.not_true, Bool.false_eq_true, if_false]
        rw [if_pos hlen8, hch, hsc]
      have hterm : sshTermSeen data = ft := by
        unfold sshTermSeen
        rw [hsc]
        cases ft <;> rfl
      rw [heq, hterm]
      cases ft with
      | true => simp
      | false =>
        by_cases h16 : 16 ≤ data.length
        · constructor
          · simp [h16]
          · intro hc
            omega
        · constructor
          · simp [h16]
          · intro hc
            simp [h16]

theorem ssh_match_terminator_w :
    validSshStart (bytes "SSH-2.0-X") = true ∧
      (Protocol.Ssh.probe_info (bytes "SSH-2.0-X")).1 = .Incomplete :=
  ⟨by decide,
    (ssh_match_terminator (bytes "SSH-2.0-X") (by decide)).2 ⟨by decide, by decide⟩⟩

theorem check_protocol_mismatch (d : ProtocolDetector) (p : Protocol) (w : List Nat)
    (hm : versionMismatch d p (p.probe_info w).2)
    (hs : (p.probe_info w).1 = .Match) :
    check_protocol d p w = (.NoMatch, .Unknown) := by
  unfold check_protocol
  cases hpi : p.probe_info w with
  | mk status version =>
    rw [hpi] at hm hs
    simp only at hm hs
    subst hs
    simp only [if_pos rfl]
    cases p <;> cases version <;>
      first
        | exact hm.elim
        | (obtain ⟨e, he, hne⟩ := hm
           rw [he]
           simp [hne])

/-- C8 counterexample: with an expected HTTP version set, an input whose HTTP
probe yields `Match` with `Unknown` version (no ` HTTP/1.x` visible) bypasses
the version filter and the engine still returns HTTP, even though the returned
version differs from the expected value. -/
theorem version_filter_cex :
    httpV11Detector.expected_versions.http = some "1.1" ∧
      (Protocol.Http.probe_info (window httpV11Detector (bytes "GET /abc"))).1 = .Match ∧
      (Protocol.Http.probe_info (window httpV11Detector (bytes "GET /abc"))).2 ≠ .Http "1.1" ∧
      httpV11Detector.detect_info (bytes "GET /abc") = .ok (some ⟨.Http, .Unknown⟩) :=
  ⟨rfl, by decide, by decide, by decide⟩

/-- C8 amended: the filter fires only for a `Match` whose version is the
protocol's own typed variant — when that typed version differs from the
configured expected value, the engine never returns that protocol (a `Match`
carrying `Unknown` or a foreign variant is returned unfiltered). -/
theorem version_filter_typed (d : ProtocolDetector) (data : List Nat) (p : Protocol)
    (hs : (p.probe_info (window d data)).1 = .Match)
    (hm : versionMismatch d p (p.probe_info (window d data)).2) :
    ∀ v, d.detect_info data ≠ .ok (some ⟨p, v⟩) := by
  intro v
  have hc := check_protocol_mismatch d p (window d data) hm hs
  have hne : ∀ u, check_protocol d p (window d data) ≠ (.Match, u) := by
    intro u h
    rw [hc] at h
    exact DetectionStatus.noConfusion (congrArg Prod.fst h)
  unfold ProtocolDetector.detect_info
  cases d.priority_order with
  | none => exact detectLoop_no_match_protocol d _ p hne _ false v
  | some order => exact detectLoop_no_match_protocol d _ p hne _ false v

theorem version_filter_typed_w :
    (Protocol.Http.probe_info (window httpV10Detector (bytes "GET / HTTP/1.1\r\n"))).1
        = .Match ∧
      httpV10Detector.detect_info (bytes "GET / HTTP/1.1\r\n") ≠
        .ok (some ⟨.Http, .Http "1.1"⟩) :=
  ⟨by decide,
    version_filter_typed httpV10Detector (bytes "GET / HTTP/1.1\r\n") .Http (by decide)
      (by
        have hv : (Protocol.Http.probe_info
            (window httpV10Detector (bytes "GET / HTTP/1.1\r\n"))).2 = .Http "1.1" := by
          decide
        rw [hv]
        exact ⟨"1.0", rfl, by decide⟩)
      (.Http "1.1")⟩

end Guess
